import Mathlib

/-!
Shallow embedding of the multi-source brand-mention aggregator
(`src/brand_monitoring/tools/custom_tool.py`).

The Python module performs network I/O through the `requests` library,
`snscrape` and `asyncpraw`.  The embedding makes that I/O explicit: the
process environment is a record of optional environment-variable values, and
the observable outcome of each provider's network interaction (parsed
payload, timeout, HTTP error status, or other exception message) is passed
in as data.  Every adapter and the aggregator itself then become total Lean
functions mirroring the Python control flow line by line.
-/

namespace BrandMonitoring

/-- Truthiness of an optional environment-variable value as Python sees it:
`os.getenv` yields `None` when a variable is unset, and both `None` and the
empty string are falsy in an `if not v:` test. -/
def truthy : Option String → Bool
  | none => false
  | some s => !s.isEmpty

/-- The environment variables read by the aggregator, each `none` when the
variable is unset in the process environment. -/
structure Env where
  SERPER_API_KEY : Option String
  NEWSAPI_API_KEY : Option String
  BRIGHTDATA_API_KEY : Option String
  REDDIT_CLIENT_ID : Option String
  REDDIT_CLIENT_SECRET : Option String
  REDDIT_USER_AGENT : Option String

/-- The outcome of one HTTP request issued through the `requests` library,
as observed by the adapter that issued it: a successful parsed payload, a
`requests.exceptions.Timeout`, an `HTTPError` raised by
`response.raise_for_status()` carrying the response status code, or another
request-level exception carrying its rendered message `str(e)`. -/
inductive ReqOutcome (α : Type) : Type
  | ok (data : α)
  | timeout (msg : String)
  | httpError (status : Nat)
  | exn (msg : String)

/-- One entry of the `organic` or `news` result lists in the Serper search
response.  Each field is optional because the Python code reads it with
`item.get(key, default)`. -/
structure SerperItem where
  title : Option String
  snippet : Option String
  link : Option String

/-- The parsed JSON body of a successful Serper response: the `organic`
result list and the optional `news` result list (`.get` with `[]` default). -/
structure SerperData where
  organic : List SerperItem
  news : List SerperItem

/-- One article of a NewsAPI response, fields read with `.get` defaults. -/
structure Article where
  title : Option String
  description : Option String
  url : Option String
  sourceName : Option String

/-- One tweet yielded by the snscrape Twitter search iterator. -/
structure Tweet where
  username : String
  rawContent : String
  url : String

/-- One submission yielded by the Reddit search iterator. -/
structure Submission where
  subredditName : String
  title : String
  score : Int
  numComments : Nat
  permalink : String

/-- The observable behaviour of all upstream providers during one
aggregation call.  The Twitter and Reddit iterations either yield their full
item list or raise an exception with message `str(e)`; the three plain HTTP
interactions are `ReqOutcome`s. -/
structure Responses where
  web : ReqOutcome SerperData
  news : ReqOutcome (List Article)
  twitter : Except String (List Tweet)
  reddit : Except String (List Submission)
  linkedin : ReqOutcome Unit

/-- Python's `s.startswith(p)`, written as a character-list prefix test so
that it evaluates by `decide`. -/
def pyStartsWith (s p : String) : Bool :=
  p.data.isPrefixOf s.data

/-- Adapter `scrape_linkedin_with_brightdata`: credential check, then one
POST to the Brightdata trigger endpoint with `Timeout`, `HTTPError` (429
special-cased) and `RequestException` each mapped to their own warning. -/
def scrape_linkedin_with_brightdata (query : String) (env : Env)
    (rsp : ReqOutcome Unit) : String :=
  if !truthy env.BRIGHTDATA_API_KEY then
    "Warning: Brightdata API key not found. Skipping LinkedIn search."
  else
    match rsp with
    | .ok _ =>
        "LinkedIn scraping job for '" ++ query ++ "' started successfully via Brightdata."
    | .timeout _ =>
        "Warning: LinkedIn scraping timed out. Service may be slow."
    | .httpError status =>
        if status = 429 then
          "Warning: LinkedIn API rate limit reached. Try again later."
        else
          "Warning: LinkedIn API error (Status " ++ toString status ++ "). Skipping."
    | .exn msg =>
        "Warning: LinkedIn scraping failed - " ++ msg.take 100 ++ ". Skipping."

/-- Rendering of one tweet inside the Twitter adapter's loop body. -/
def renderTweet (t : Tweet) : String :=
  "Username: @" ++ t.username ++ "\nTweet: " ++ t.rawContent.take 200 ++
  "...\nURL: " ++ t.url ++ "\n---"

/-- The `enumerate` loop of the Twitter adapter: index `i` starts at 0 and
the loop breaks before appending once `i >= 15`. -/
def tweetLoop : Nat → List Tweet → List String
  | _, [] => []
  | i, t :: rest =>
    if 15 ≤ i then [] else renderTweet t :: tweetLoop (i + 1) rest

/-- Adapter `scrape_twitter_with_snscrape`: no credential is required; any
exception from the scraper is swallowed into a warning, an empty harvest
yields a no-results notice, otherwise the rendered tweets are joined. -/
def scrape_twitter_with_snscrape (query : String)
    (rsp : Except String (List Tweet)) : String :=
  match rsp with
  | .error msg =>
      "Warning: Twitter scraping unavailable - " ++ msg.take 100 ++
      ". This is common due to API restrictions."
  | .ok items =>
      let tweets := tweetLoop 0 items
      if tweets.isEmpty then
        "No recent tweets found for '" ++ query ++
        "'. This may be due to API limitations or search restrictions."
      else
        String.intercalate "\n" tweets

/-- Rendering of one Reddit submission, with the absolute URL rebuilt from
the relative permalink exactly as the Python loop body does
(`reddit_url = f"https://www.reddit.com{submission.permalink}"`). -/
def renderSubmission (s : Submission) : String :=
  let reddit_url := "https://www.reddit.com" ++ s.permalink
  "Platform: Reddit (r/" ++ s.subredditName ++ ")\nTitle: " ++ s.title.take 150 ++
  "...\nScore: " ++ toString s.score ++ " | Comments: " ++ toString s.numComments ++
  "\nURL: " ++ reddit_url ++ "\n---"

/-- The Reddit adapter's loop: it appends the rendered submission and then
breaks once the accumulated list has reached 8 entries. -/
def submissionLoop : List String → List Submission → List String
  | acc, [] => acc
  | acc, s :: rest =>
    let acc2 := acc ++ [renderSubmission s]
    if 8 ≤ acc2.length then acc2 else submissionLoop acc2 rest

/-- Adapter `scrape_reddit_with_praw`: requires both client id and secret
(Python `if not all([client_id, client_secret])`), swallows any exception of
the search into a warning, and otherwise joins the rendered submissions or
reports that none were found. -/
def scrape_reddit_with_praw (query : String) (env : Env)
    (rsp : Except String (List Submission)) : String :=
  if !(truthy env.REDDIT_CLIENT_ID && truthy env.REDDIT_CLIENT_SECRET) then
    "Warning: Reddit API credentials not found. Skipping Reddit search."
  else
    match rsp with
    | .error msg =>
        "Warning: Reddit search failed - " ++ msg.take 100 ++ "."
    | .ok subs =>
        let submissions := submissionLoop [] subs
        if submissions.isEmpty then
          "No recent Reddit posts found for '" ++ query ++ "'."
        else
          String.intercalate "\n" submissions

/-- Adapter `scrape_facebook`: a constant informational placeholder; the
Python function concatenates two string literals and uses no credential and
no network call. -/
def scrape_facebook (_query : String) : String :=
  "Info: Facebook scraping requires special permissions and is not implemented. " ++
  "For Facebook monitoring, consider using Facebook's official Graph API with proper business verification."

/-- The URL guard applied to every Serper result entry:
`if link and (link.startswith('http://') or link.startswith('https://'))`. -/
def isValidListedLink (link : String) : Bool :=
  !link.isEmpty && (pyStartsWith link "http://" || pyStartsWith link "https://")

/-- Rendering of one accepted `organic` Serper entry, with the `.get`
defaults of the Python loop body. -/
def renderOrganicItem (item : SerperItem) : String :=
  "Platform: Web Search\nTitle: " ++ item.title.getD "N/A" ++
  "\nSnippet: " ++ (item.snippet.getD "No description available").take 200 ++
  "...\nURL: " ++ item.link.getD "" ++ "\n---"

/-- Rendering of one accepted `news` Serper entry. -/
def renderSerperNewsItem (item : SerperItem) : String :=
  "Platform: News\nTitle: " ++ item.title.getD "N/A" ++
  "\nSnippet: " ++ (item.snippet.getD "No description available").take 200 ++
  "...\nURL: " ++ item.link.getD "" ++ "\n---"

/-- The first loop of `enhanced_web_search` over the `organic` list:
entries failing the URL guard are skipped, the others are rendered. -/
def organicLoop : List SerperItem → List String
  | [] => []
  | item :: rest =>
    if isValidListedLink (item.link.getD "") then
      renderOrganicItem item :: organicLoop rest
    else
      organicLoop rest

/-- The second loop of `enhanced_web_search` over the `news` list. -/
def serperNewsLoop : List SerperItem → List String
  | [] => []
  | item :: rest =>
    if isValidListedLink (item.link.getD "") then
      renderSerperNewsItem item :: serperNewsLoop rest
    else
      serperNewsLoop rest

/-- Adapter `enhanced_web_search`: one POST to the Serper endpoint; an
`HTTPError` is mapped to a rate-limit warning for status 429 and to a
generic status warning otherwise, every other exception to a truncated
generic warning; on success both loops fill `search_results`, which is
joined or replaced by a no-results notice. -/
def enhanced_web_search (query : String) (_serper_api_key : String)
    (rsp : ReqOutcome SerperData) : String :=
  match rsp with
  | .httpError status =>
      if status = 429 then
        "Warning: Search API rate limit reached."
      else
        "Warning: Search API error (Status " ++ toString status ++ ")."
  | .timeout msg =>
      "Warning: Web search failed - " ++ msg.take 100 ++ "."
  | .exn msg =>
      "Warning: Web search failed - " ++ msg.take 100 ++ "."
  | .ok data =>
      let search_results := organicLoop data.organic ++ serperNewsLoop data.news
      if search_results.isEmpty then
        "No web results found for '" ++ query ++ "'."
      else
        String.intercalate "\n" search_results

/-- The article guard of the news block in `search_internet`:
`if (title and title != '[Removed]' and url and (url.startswith('http://')
or url.startswith('https://')))`. -/
def validArticle (a : Article) : Bool :=
  let title := a.title.getD ""
  let url := a.url.getD ""
  !title.isEmpty && title != "[Removed]" && !url.isEmpty &&
    (pyStartsWith url "http://" || pyStartsWith url "https://")

/-- Rendering of one accepted NewsAPI article. -/
def renderArticle (a : Article) : String :=
  "Platform: News (" ++ a.sourceName.getD "Unknown" ++ ")\nTitle: " ++ a.title.getD "" ++
  "\nDescription: " ++ (a.description.getD "No description").take 200 ++
  "...\nURL: " ++ a.url.getD "" ++ "\n---"

/-- The article loop of the news block: removed or badly-linked articles
are silently skipped, the others rendered. -/
def articleLoop : List Article → List String
  | [] => []
  | a :: rest =>
    if validArticle a then renderArticle a :: articleLoop rest else articleLoop rest

/-- The aggregator `search_internet`.  The generation timestamp rendered by
`datetime.now().strftime('%Y-%m-%d %H:%M:%S')` enters as the explicit
argument `now`.  Everything else mirrors the Python body statement by
statement: the Serper and NewsAPI blocks inline, the four social adapters
called, the six labeled sections joined with a newline, and the summary
footer appended. -/
def search_internet (query : String) (env : Env) (rsp : Responses)
    (now : String) : String :=
  let serper_results :=
    if !truthy env.SERPER_API_KEY then
      "Warning: Serper API key not found. Skipping general web search."
    else
      enhanced_web_search query (env.SERPER_API_KEY.getD "") rsp.web
  let news_results :=
    if !truthy env.NEWSAPI_API_KEY then
      "Warning: NewsAPI key not found. Skipping news search."
    else
      match rsp.news with
      | .ok articles =>
          if !articles.isEmpty then
            let news_items := articleLoop articles
            if !news_items.isEmpty then
              String.intercalate "\n" news_items
            else
              "No recent news articles found for '" ++ query ++ "'."
          else
            "No recent news articles found for '" ++ query ++ "'."
      | .httpError status =>
          if status = 426 then
            "Warning: NewsAPI requires upgrade for this request."
          else
            "Warning: News search failed (Status " ++ toString status ++ ")."
      | .timeout msg =>
          "Warning: NewsAPI request failed - " ++ msg.take 100 ++ "."
      | .exn msg =>
          "Warning: NewsAPI request failed - " ++ msg.take 100 ++ "."
  let twitter_results := scrape_twitter_with_snscrape query rsp.twitter
  let reddit_results := scrape_reddit_with_praw query env rsp.reddit
  let linkedin_results := scrape_linkedin_with_brightdata query env rsp.linkedin
  let facebook_results := scrape_facebook query
  let results_sections :=
    ["--- General Web Search Results ---\n" ++ serper_results ++ "\n",
     "--- News Search Results ---\n" ++ news_results ++ "\n",
     "--- Twitter Results ---\n" ++ twitter_results ++ "\n",
     "--- Reddit Results ---\n" ++ reddit_results ++ "\n",
     "--- LinkedIn Results ---\n" ++ linkedin_results ++ "\n",
     "--- Facebook Results ---\n" ++ facebook_results]
  let combined_results := String.intercalate "\n" results_sections
  let summary :=
    "\n--- Search Summary ---\nSearch completed for: '" ++ query ++
    "'\nTimestamp: " ++ now ++
    "\nNote: Some platforms may have limited results due to API restrictions or company visibility.\n"
  combined_results ++ summary

/-!
Spec-side decomposition.  The following definitions restate the document
shape and the per-provider section bodies in the spec's terms (fixed section
order, one body per provider, summary footer); the theorems below relate
`search_internet` to them.
-/

/-- The Web section body as a function of the query, the environment and the
Web provider's outcome alone, mirroring the Serper block of
`search_internet`. -/
def webSectionBody (query : String) (env : Env) (web : ReqOutcome SerperData) : String :=
  if !truthy env.SERPER_API_KEY then
    "Warning: Serper API key not found. Skipping general web search."
  else
    enhanced_web_search query (env.SERPER_API_KEY.getD "") web

/-- The News section body as a function of the query, the environment and
the News provider's outcome alone, mirroring the NewsAPI block of
`search_internet`. -/
def newsSectionBody (query : String) (env : Env) (news : ReqOutcome (List Article)) : String :=
  if !truthy env.NEWSAPI_API_KEY then
    "Warning: NewsAPI key not found. Skipping news search."
  else
    match news with
    | .ok articles =>
        if !articles.isEmpty then
          let news_items := articleLoop articles
          if !news_items.isEmpty then
            String.intercalate "\n" news_items
          else
            "No recent news articles found for '" ++ query ++ "'."
        else
          "No recent news articles found for '" ++ query ++ "'."
    | .httpError status =>
        if status = 426 then
          "Warning: NewsAPI requires upgrade for this request."
        else
          "Warning: News search failed (Status " ++ toString status ++ ")."
    | .timeout msg =>
        "Warning: NewsAPI request failed - " ++ msg.take 100 ++ "."
    | .exn msg =>
        "Warning: NewsAPI request failed - " ++ msg.take 100 ++ "."

/-- The document skeleton: six labeled provider sections in the fixed order
Web, News, Twitter, Reddit, LinkedIn, Facebook, followed by the summary
footer quoting the query and the timestamp and closing with the disclaimer. -/
def renderDoc (q now w n t r l f : String) : String :=
  "--- General Web Search Results ---\n" ++ w ++
  "\n\n--- News Search Results ---\n" ++ n ++
  "\n\n--- Twitter Results ---\n" ++ t ++
  "\n\n--- Reddit Results ---\n" ++ r ++
  "\n\n--- LinkedIn Results ---\n" ++ l ++
  "\n\n--- Facebook Results ---\n" ++ f ++
  "\n--- Search Summary ---\nSearch completed for: '" ++ q ++
  "'\nTimestamp: " ++ now ++
  "\nNote: Some platforms may have limited results due to API restrictions or company visibility.\n"

/-- Everything of the document that precedes the timestamp field. -/
def docBeforeTimestamp (q w n t r l f : String) : String :=
  "--- General Web Search Results ---\n" ++ w ++
  "\n\n--- News Search Results ---\n" ++ n ++
  "\n\n--- Twitter Results ---\n" ++ t ++
  "\n\n--- Reddit Results ---\n" ++ r ++
  "\n\n--- LinkedIn Results ---\n" ++ l ++
  "\n\n--- Facebook Results ---\n" ++ f ++
  "\n--- Search Summary ---\nSearch completed for: '" ++ q ++
  "'\nTimestamp: "

/-- Everything of the document that follows the timestamp field. -/
def docAfterTimestamp : String :=
  "\nNote: Some platforms may have limited results due to API restrictions or company visibility.\n"

/-- The generic (non-429-specific) failure message of the Serper block for
an HTTP error status. -/
def genericWebFailure (status : Nat) : String :=
  "Warning: Search API error (Status " ++ toString status ++ ")."

/-- The generic (non-426-specific) failure message of the NewsAPI block for
an HTTP error status. -/
def genericNewsFailure (status : Nat) : String :=
  "Warning: News search failed (Status " ++ toString status ++ ")."

/-- A process environment with every aggregator credential variable unset. -/
def envNoCredentials : Env :=
  ⟨none, none, none, none, none, none⟩

/-- A process environment with every credential variable set to a non-empty
value. -/
def envFullCredentials : Env :=
  ⟨some "serper-key", some "news-key", some "bright-key",
   some "reddit-id", some "reddit-secret", some "brand-monitoring-app v1.0"⟩

/-- Provider behaviour in which every network interaction fails. -/
def responsesAllFailing : Responses :=
  ⟨ReqOutcome.exn "boom", ReqOutcome.exn "boom", Except.error "boom",
   Except.error "boom", ReqOutcome.exn "boom"⟩

/-- Provider behaviour in which the Twitter scraper succeeds with an empty
harvest and everything else fails. -/
def responsesIdle : Responses :=
  ⟨ReqOutcome.exn "unused", ReqOutcome.exn "unused", Except.ok [],
   Except.error "unused", ReqOutcome.exn "unused"⟩

/-- A sample Reddit submission with a relative permalink. -/
def sampleSubmission : Submission :=
  ⟨"technology", "Acme Corp rumor", 42, 7, "/r/technology/comments/abc/acme_corp_rumor/"⟩

/-- A NewsAPI article carrying the removed-article sentinel title. -/
def removedArticle : Article :=
  ⟨some "[Removed]", some "gone", some "https://example.com/a", some "SomeWire"⟩

/-- A well-formed NewsAPI article. -/
def goodArticle : Article :=
  ⟨some "Acme Corp expands", some "details", some "https://example.com/b", some "TechDaily"⟩

/-!
Shared helper lemmas.
-/

/-- A string whose first character is not `W` has no prefix `Warning`. -/
theorem no_warning_prefix_of_head (s : String) (h : s.data.head? ≠ some 'W') :
    ¬ ∃ rest, s = "Warning" ++ rest := by
  rintro ⟨rest, hr⟩
  apply h
  rw [hr, String.data_append]
  rw [show ("Warning" : String).data = 'W' :: "arning".data from rfl]
  rfl

theorem intercalate_six (a b c d e f : String) :
    String.intercalate "\n" [a, b, c, d, e, f] =
      a ++ "\n" ++ b ++ "\n" ++ c ++ "\n" ++ d ++ "\n" ++ e ++ "\n" ++ f := rfl

theorem newline_merge_news (x : String) :
    ("\n" : String) ++ ("\n" ++ ("--- News Search Results ---\n" ++ x)) =
      "\n\n--- News Search Results ---\n" ++ x := by
  rw [← String.append_assoc, ← String.append_assoc]; rfl

theorem newline_merge_twitter (x : String) :
    ("\n" : String) ++ ("\n" ++ ("--- Twitter Results ---\n" ++ x)) =
      "\n\n--- Twitter Results ---\n" ++ x := by
  rw [← String.append_assoc, ← String.append_assoc]; rfl

theorem newline_merge_reddit (x : String) :
    ("\n" : String) ++ ("\n" ++ ("--- Reddit Results ---\n" ++ x)) =
      "\n\n--- Reddit Results ---\n" ++ x := by
  rw [← String.append_assoc, ← String.append_assoc]; rfl

theorem newline_merge_linkedin (x : String) :
    ("\n" : String) ++ ("\n" ++ ("--- LinkedIn Results ---\n" ++ x)) =
      "\n\n--- LinkedIn Results ---\n" ++ x := by
  rw [← String.append_assoc, ← String.append_assoc]; rfl

theorem newline_merge_facebook (x : String) :
    ("\n" : String) ++ ("\n" ++ ("--- Facebook Results ---\n" ++ x)) =
      "\n\n--- Facebook Results ---\n" ++ x := by
  rw [← String.append_assoc, ← String.append_assoc]; rfl

/-- Factorization of the aggregator: its result is always the fixed
six-section document skeleton, each section body computed from that
provider's outcome alone. -/
theorem search_internet_factored (q : String) (env : Env) (rsp : Responses) (now : String) :
    search_internet q env rsp now =
      renderDoc q now (webSectionBody q env rsp.web) (newsSectionBody q env rsp.news)
        (scrape_twitter_with_snscrape q rsp.twitter)
        (scrape_reddit_with_praw q env rsp.reddit)
        (scrape_linkedin_with_brightdata q env rsp.linkedin)
        (scrape_facebook q) := by
  simp only [search_internet, webSectionBody, newsSectionBody, renderDoc, intercalate_six]
  simp only [String.append_assoc]
  rw [newline_merge_news, newline_merge_twitter, newline_merge_reddit,
    newline_merge_linkedin, newline_merge_facebook]

theorem renderDoc_split (q now w n t r l f : String) :
    renderDoc q now w n t r l f =
      docBeforeTimestamp q w n t r l f ++ now ++ docAfterTimestamp := rfl

/-- The organic loop keeps exactly the entries passing the URL guard. -/
theorem organicLoop_eq (l : List SerperItem) :
    organicLoop l =
      (l.filter fun i => isValidListedLink (i.link.getD "")).map renderOrganicItem := by
  induction l with
  | nil => rfl
  | cons a rest ih =>
    cases h : isValidListedLink (a.link.getD "") <;>
      simp [organicLoop, List.filter_cons, h, ih]

/-- The Serper news loop keeps exactly the entries passing the URL guard. -/
theorem serperNewsLoop_eq (l : List SerperItem) :
    serperNewsLoop l =
      (l.filter fun i => isValidListedLink (i.link.getD "")).map renderSerperNewsItem := by
  induction l with
  | nil => rfl
  | cons a rest ih =>
    cases h : isValidListedLink (a.link.getD "") <;>
      simp [serperNewsLoop, List.filter_cons, h, ih]

/-- The article loop keeps exactly the articles passing the guard. -/
theorem articleLoop_eq (l : List Article) :
    articleLoop l = (l.filter validArticle).map renderArticle := by
  induction l with
  | nil => rfl
  | cons a rest ih =>
    cases h : validArticle a <;>
      simp [articleLoop, List.filter_cons, h, ih]

theorem submissionLoop_general (subs : List Submission) :
    ∀ acc : List String, acc.length < 8 →
      submissionLoop acc subs = acc ++ (subs.take (8 - acc.length)).map renderSubmission := by
  induction subs with
  | nil => intro acc _; simp [submissionLoop]
  | cons s rest ih =>
    intro acc hacc
    rw [submissionLoop]
    by_cases h8 : 8 ≤ (acc ++ [renderSubmission s]).length
    · have hlen : acc.length = 7 := by
        simp only [List.length_append, List.length_cons, List.length_nil] at h8
        omega
      have htake : 8 - acc.length = 1 := by omega
      simp [h8, hlen, htake, List.take_succ_cons]
    · rw [if_neg h8]
      have hlt : (acc ++ [renderSubmission s]).length < 8 := by omega
      rw [ih _ hlt]
      have : 8 - (acc ++ [renderSubmission s]).length = 8 - acc.length - 1 := by
        simp only [List.length_append, List.length_cons, List.length_nil]
        omega
      rw [this]
      have hpos : 8 - acc.length = (8 - acc.length - 1) + 1 := by omega
      rw [hpos, List.take_succ_cons]
      simp

/-- The Reddit loop collects the first eight submissions, rendered. -/
theorem submissionLoop_eq (subs : List Submission) :
    submissionLoop [] subs = (subs.take 8).map renderSubmission := by
  simpa using submissionLoop_general subs [] (by simp)

theorem empty_query_merge (x : String) :
    ("\n--- Search Summary ---\nSearch completed for: '" : String) ++
        ("" ++ ("'\nTimestamp: " ++ x)) =
      "\n--- Search Summary ---\nSearch completed for: ''\nTimestamp: " ++ x := by
  rw [← String.append_assoc, ← String.append_assoc]; rfl

/-!
Claim theorems.
-/

/-- C1.  For every query string, environment and combination of provider
outcomes — including every modelled adapter failure (absent credential,
timeout, HTTP error status, request exception, scraper exception) — the
aggregation is a total function whose value is the full six-section
document: each section body is computed from that provider's outcome alone,
so any failure is contained in its own section as explanatory text, and
even total failure of all six providers still yields the returnable
document skeleton. -/
theorem search_internet_total_containment (q : String) (env : Env) (rsp : Responses)
    (now : String) :
    search_internet q env rsp now =
      renderDoc q now (webSectionBody q env rsp.web) (newsSectionBody q env rsp.news)
        (scrape_twitter_with_snscrape q rsp.twitter)
        (scrape_reddit_with_praw q env rsp.reddit)
        (scrape_linkedin_with_brightdata q env rsp.linkedin)
        (scrape_facebook q) :=
  search_internet_factored q env rsp now

/-- C2.  For every query and every combination of provider outcomes, the
output is one document made of exactly six labeled provider sections in the
fixed order Web Search, News, Twitter, Reddit, LinkedIn, Facebook, followed
by a summary footer quoting the original query, the generation timestamp
and the disclaimer. -/
theorem search_internet_six_labeled_sections (q : String) (env : Env) (rsp : Responses)
    (now : String) :
    ∃ w n t r l f : String,
      search_internet q env rsp now =
        "--- General Web Search Results ---\n" ++ w ++
        "\n\n--- News Search Results ---\n" ++ n ++
        "\n\n--- Twitter Results ---\n" ++ t ++
        "\n\n--- Reddit Results ---\n" ++ r ++
        "\n\n--- LinkedIn Results ---\n" ++ l ++
        "\n\n--- Facebook Results ---\n" ++ f ++
        "\n--- Search Summary ---\nSearch completed for: '" ++ q ++
        "'\nTimestamp: " ++ now ++
        "\nNote: Some platforms may have limited results due to API restrictions or company visibility.\n" :=
  ⟨webSectionBody q env rsp.web, newsSectionBody q env rsp.news,
    scrape_twitter_with_snscrape q rsp.twitter, scrape_reddit_with_praw q env rsp.reddit,
    scrape_linkedin_with_brightdata q env rsp.linkedin, scrape_facebook q,
    search_internet_factored q env rsp now⟩

/-- C8.  The aggregation is deterministic apart from the timestamp: with
the query, the environment and the provider responses held fixed, two runs
produce the same document `a ++ timestamp ++ b`, where `a` and `b` do not
depend on the timestamp — i.e. the outputs are byte-identical except for
the timestamp field of the summary footer. -/
theorem deterministic_up_to_timestamp (q : String) (env : Env) (rsp : Responses)
    (t1 t2 : String) :
    ∃ a b : String,
      search_internet q env rsp t1 = a ++ t1 ++ b ∧
      search_internet q env rsp t2 = a ++ t2 ++ b := by
  refine ⟨docBeforeTimestamp q (webSectionBody q env rsp.web) (newsSectionBody q env rsp.news)
      (scrape_twitter_with_snscrape q rsp.twitter) (scrape_reddit_with_praw q env rsp.reddit)
      (scrape_linkedin_with_brightdata q env rsp.linkedin) (scrape_facebook q),
    docAfterTimestamp, ?_, ?_⟩
  · rw [search_internet_factored, renderDoc_split]
  · rw [search_internet_factored, renderDoc_split]

/-- C10.  The aggregator performs no validation of the query, not even a
non-emptiness check: for the empty query it still returns the full
six-section document, whose footer quotes the empty query between two
apostrophes, structurally identical to any other input. -/
theorem empty_query_full_document (env : Env) (rsp : Responses) (now : String) :
    ∃ w n t r l f : String,
      search_internet "" env rsp now =
        "--- General Web Search Results ---\n" ++ w ++
        "\n\n--- News Search Results ---\n" ++ n ++
        "\n\n--- Twitter Results ---\n" ++ t ++
        "\n\n--- Reddit Results ---\n" ++ r ++
        "\n\n--- LinkedIn Results ---\n" ++ l ++
        "\n\n--- Facebook Results ---\n" ++ f ++
        "\n--- Search Summary ---\nSearch completed for: ''\nTimestamp: " ++ now ++
        "\nNote: Some platforms may have limited results due to API restrictions or company visibility.\n" := by
  refine ⟨webSectionBody "" env rsp.web, newsSectionBody "" env rsp.news,
    scrape_twitter_with_snscrape "" rsp.twitter, scrape_reddit_with_praw "" env rsp.reddit,
    scrape_linkedin_with_brightdata "" env rsp.linkedin, scrape_facebook "", ?_⟩
  rw [search_internet_factored]
  simp only [renderDoc, String.append_assoc]
  rw [empty_query_merge]

theorem take_eight_map_isEmpty {α β : Type} (f : α → β) (l : List α) :
    ((l.take 8).map f).isEmpty = l.isEmpty := by
  cases l <;> rfl

/-- C5.  Every URL field of the Reddit section is the absolute URL obtained
by prefixing `https://www.reddit.com` to the submission's relative
permalink: each rendered entry ends in that absolute URL plus terminator,
the loop output is exactly the first eight entries so rendered, and, with
credentials present, the whole Reddit section body on a successful search
is the join of those entries (or the no-results notice) — no bare relative
permalink is ever emitted. -/
theorem reddit_urls_absolute :
    (∀ s : Submission, ∃ pre : String,
        renderSubmission s = pre ++ ("https://www.reddit.com" ++ s.permalink) ++ "\n---") ∧
    (∀ subs : List Submission,
        submissionLoop [] subs = (subs.take 8).map renderSubmission) ∧
    (∀ (q : String) (env : Env) (subs : List Submission),
        truthy env.REDDIT_CLIENT_ID = true → truthy env.REDDIT_CLIENT_SECRET = true →
        scrape_reddit_with_praw q env (Except.ok subs) =
          if subs.isEmpty then "No recent Reddit posts found for '" ++ q ++ "'."
          else String.intercalate "\n" ((subs.take 8).map renderSubmission)) := by
  refine ⟨?_, submissionLoop_eq, ?_⟩
  · intro s
    exact ⟨"Platform: Reddit (r/" ++ s.subredditName ++ ")\nTitle: " ++ s.title.take 150 ++
      "...\nScore: " ++ toString s.score ++ " | Comments: " ++ toString s.numComments ++
      "\nURL: ", rfl⟩
  · intro q env subs h1 h2
    simp only [scrape_reddit_with_praw, h1, h2, Bool.and_self, Bool.not_true,
      Bool.false_eq_true, if_false, submissionLoop_eq, take_eight_map_isEmpty]

/-- C6.  On a successful web-search response, the Web section body is built
from exactly the `organic` entries whose link is non-empty and begins with
`http://` or `https://`: every entry with an empty or scheme-less
(relative) link is excluded from the body. -/
theorem web_search_excludes_invalid_links (q key : String) (data : SerperData) :
    enhanced_web_search q key (ReqOutcome.ok data) =
      (let entries :=
        ((data.organic.filter fun i => isValidListedLink (i.link.getD "")).map
          renderOrganicItem) ++ serperNewsLoop data.news
      if entries.isEmpty then "No web results found for '" ++ q ++ "'."
      else String.intercalate "\n" entries) := by
  simp only [enhanced_web_search, organicLoop_eq]

/-- C9.  On a successful web-search response carrying a `news` list, the
entries of that list passing the same absolute-URL filter are appended to
the Web section body after all organic entries, and every such entry is
labeled `Platform: News`. -/
theorem web_section_appends_serper_news (q key : String) (data : SerperData) :
    (enhanced_web_search q key (ReqOutcome.ok data) =
      (let entries := organicLoop data.organic ++
        ((data.news.filter fun i => isValidListedLink (i.link.getD "")).map
          renderSerperNewsItem)
      if entries.isEmpty then "No web results found for '" ++ q ++ "'."
      else String.intercalate "\n" entries)) ∧
    (∀ item : SerperItem, ∃ rest, renderSerperNewsItem item = "Platform: News\n" ++ rest) := by
  constructor
  · simp only [enhanced_web_search, serperNewsLoop_eq]
  · intro item
    refine ⟨"Title: " ++ item.title.getD "N/A" ++ "\nSnippet: " ++
      (item.snippet.getD "No description available").take 200 ++
      "...\nURL: " ++ item.link.getD "" ++ "\n---", ?_⟩
    simp only [renderSerperNewsItem]
    rw [show ("Platform: News\nTitle: " : String) = "Platform: News\n" ++ "Title: " from rfl]
    simp only [String.append_assoc]

/-- C3 (amended).  If all credential environment variables are absent, the
aggregation completes and yields the full six-section document; the Web,
News, Reddit and LinkedIn bodies are Warning-type skip messages, the
Twitter body is Warning-type whenever the scraper raises, and the Facebook
body is always the Info-type placeholder, not a Warning. -/
theorem all_credentials_absent_degrade (q : String) (env : Env) (rsp : Responses)
    (now : String)
    (hs : env.SERPER_API_KEY = none) (hn : env.NEWSAPI_API_KEY = none)
    (hb : env.BRIGHTDATA_API_KEY = none) (hr : env.REDDIT_CLIENT_ID = none) :
    search_internet q env rsp now =
      renderDoc q now (webSectionBody q env rsp.web) (newsSectionBody q env rsp.news)
        (scrape_twitter_with_snscrape q rsp.twitter)
        (scrape_reddit_with_praw q env rsp.reddit)
        (scrape_linkedin_with_brightdata q env rsp.linkedin)
        (scrape_facebook q) ∧
    (∃ a, webSectionBody q env rsp.web = "Warning: " ++ a) ∧
    (∃ b, newsSectionBody q env rsp.news = "Warning: " ++ b) ∧
    (∃ c, scrape_reddit_with_praw q env rsp.reddit = "Warning: " ++ c) ∧
    (∃ d, scrape_linkedin_with_brightdata q env rsp.linkedin = "Warning: " ++ d) ∧
    (∀ msg, rsp.twitter = Except.error msg →
      ∃ e, scrape_twitter_with_snscrape q rsp.twitter = "Warning: " ++ e) ∧
    (∃ f, scrape_facebook q = "Info: " ++ f) := by
  refine ⟨search_internet_factored q env rsp now,
    ⟨"Serper API key not found. Skipping general web search.", ?_⟩,
    ⟨"NewsAPI key not found. Skipping news search.", ?_⟩,
    ⟨"Reddit API credentials not found. Skipping Reddit search.", ?_⟩,
    ⟨"Brightdata API key not found. Skipping LinkedIn search.", ?_⟩, ?_,
    ⟨"Facebook scraping requires special permissions and is not implemented. For Facebook monitoring, consider using Facebook's official Graph API with proper business verification.", ?_⟩⟩
  · simp only [webSectionBody, hs]; rfl
  · simp only [newsSectionBody, hn]; rfl
  · simp only [scrape_reddit_with_praw, hr]; rfl
  · simp only [scrape_linkedin_with_brightdata, hb]; rfl
  · intro msg hm
    rw [hm]
    refine ⟨"Twitter scraping unavailable - " ++ msg.take 100 ++
      ". This is common due to API restrictions.", ?_⟩
    simp only [scrape_twitter_with_snscrape]
    rw [show ("Warning: Twitter scraping unavailable - " : String) =
      "Warning: " ++ "Twitter scraping unavailable - " from rfl]
    simp only [String.append_assoc]
  · rfl

/-- Witness for C3 (amended) at a concrete no-credential environment with
every provider failing. -/
theorem all_credentials_absent_degrade_witness :
    search_internet "Acme Corp" envNoCredentials responsesAllFailing "2024-01-01 00:00:00" =
      renderDoc "Acme Corp" "2024-01-01 00:00:00"
        (webSectionBody "Acme Corp" envNoCredentials responsesAllFailing.web)
        (newsSectionBody "Acme Corp" envNoCredentials responsesAllFailing.news)
        (scrape_twitter_with_snscrape "Acme Corp" responsesAllFailing.twitter)
        (scrape_reddit_with_praw "Acme Corp" envNoCredentials responsesAllFailing.reddit)
        (scrape_linkedin_with_brightdata "Acme Corp" envNoCredentials responsesAllFailing.linkedin)
        (scrape_facebook "Acme Corp") ∧
    (∃ a, webSectionBody "Acme Corp" envNoCredentials responsesAllFailing.web = "Warning: " ++ a) ∧
    (∃ b, newsSectionBody "Acme Corp" envNoCredentials responsesAllFailing.news = "Warning: " ++ b) ∧
    (∃ c, scrape_reddit_with_praw "Acme Corp" envNoCredentials responsesAllFailing.reddit = "Warning: " ++ c) ∧
    (∃ d, scrape_linkedin_with_brightdata "Acme Corp" envNoCredentials responsesAllFailing.linkedin = "Warning: " ++ d) ∧
    (∃ e, scrape_twitter_with_snscrape "Acme Corp" responsesAllFailing.twitter = "Warning: " ++ e) ∧
    (∃ f, scrape_facebook "Acme Corp" = "Info: " ++ f) := by
  obtain ⟨h1, h2, h3, h4, h5, h6, h7⟩ :=
    all_credentials_absent_degrade "Acme Corp" envNoCredentials responsesAllFailing
      "2024-01-01 00:00:00" rfl rfl rfl rfl
  exact ⟨h1, h2, h3, h4, h5, h6 "boom" rfl, h7⟩

/-- Counterexample to C3 as stated: with every credential absent the call
does complete and produce the six sections, but not all six bodies are
Warning-type — the Facebook body is the Info placeholder (and a Twitter
run that merely finds nothing yields a no-results notice, also not a
Warning). -/
theorem all_credentials_absent_not_all_warning :
    search_internet "Acme Corp" envNoCredentials responsesIdle "2024-01-01 00:00:00" =
      renderDoc "Acme Corp" "2024-01-01 00:00:00"
        "Warning: Serper API key not found. Skipping general web search."
        "Warning: NewsAPI key not found. Skipping news search."
        "No recent tweets found for 'Acme Corp'. This may be due to API limitations or search restrictions."
        "Warning: Reddit API credentials not found. Skipping Reddit search."
        "Warning: Brightdata API key not found. Skipping LinkedIn search."
        "Info: Facebook scraping requires special permissions and is not implemented. For Facebook monitoring, consider using Facebook's official Graph API with proper business verification." ∧
    (¬ ∃ rest, scrape_facebook "Acme Corp" = "Warning" ++ rest) ∧
    (¬ ∃ rest, scrape_twitter_with_snscrape "Acme Corp" (Except.ok []) = "Warning" ++ rest) := by
  refine ⟨?_, ?_, ?_⟩
  · rw [search_internet_factored]; rfl
  · exact no_warning_prefix_of_head _ (by decide)
  · exact no_warning_prefix_of_head _ (by decide)

/-- C4 (amended).  With the keys present, an HTTP error from the web-search
endpoint yields the rate-limit-specific message exactly for status 429 and
the generic status message otherwise; the news endpoint special-cases only
status 426 (upgrade required), every other status — including 429 — being
rendered by the generic failure template. -/
theorem http_429_and_426_messages (q : String) (env : Env) (status : Nat)
    (hs : truthy env.SERPER_API_KEY = true) (hn : truthy env.NEWSAPI_API_KEY = true) :
    webSectionBody q env (ReqOutcome.httpError status) =
      (if status = 429 then "Warning: Search API rate limit reached."
       else genericWebFailure status) ∧
    newsSectionBody q env (ReqOutcome.httpError status) =
      (if status = 426 then "Warning: NewsAPI requires upgrade for this request."
       else genericNewsFailure status) := by
  constructor
  · simp [webSectionBody, enhanced_web_search, hs, genericWebFailure]
  · simp [newsSectionBody, hn, genericNewsFailure]

/-- Witness for C4 (amended) at status 429 with full credentials. -/
theorem http_429_and_426_messages_witness :
    truthy envFullCredentials.SERPER_API_KEY = true ∧
    truthy envFullCredentials.NEWSAPI_API_KEY = true ∧
    (webSectionBody "Acme Corp" envFullCredentials (ReqOutcome.httpError 429) =
      (if 429 = 429 then "Warning: Search API rate limit reached."
       else genericWebFailure 429) ∧
     newsSectionBody "Acme Corp" envFullCredentials (ReqOutcome.httpError 429) =
      (if 429 = 426 then "Warning: NewsAPI requires upgrade for this request."
       else genericNewsFailure 429)) :=
  ⟨rfl, rfl, http_429_and_426_messages "Acme Corp" envFullCredentials 429 rfl rfl⟩

/-- Counterexample to C4 as stated: a 429 from the news endpoint is not
rendered by any rate-limit-specific message — it produces exactly the same
generic failure template instantiated at 429 that status 500 receives at
500, whereas the web-search endpoint does have a distinct 429 message. -/
theorem news_429_generic_message :
    newsSectionBody "Acme Corp" envFullCredentials (ReqOutcome.httpError 429) =
      genericNewsFailure 429 ∧
    newsSectionBody "Acme Corp" envFullCredentials (ReqOutcome.httpError 500) =
      genericNewsFailure 500 ∧
    webSectionBody "Acme Corp" envFullCredentials (ReqOutcome.httpError 429) ≠
      genericWebFailure 429 := by
  refine ⟨rfl, rfl, ?_⟩
  decide

/-- C7.  On a successful news response, the News section body is built from
exactly the articles passing the guard — title non-empty and different from
the removed-article sentinel `[Removed]`, URL non-empty and absolute
http/https — the filtered articles being silently dropped, never surfaced
as errors: the body is either the join of the surviving rendered articles
or the no-results notice. -/
theorem news_excludes_removed_articles (q : String) (env : Env) (articles : List Article)
    (h : truthy env.NEWSAPI_API_KEY = true) :
    newsSectionBody q env (ReqOutcome.ok articles) =
      if ((articles.filter validArticle).map renderArticle).isEmpty then
        "No recent news articles found for '" ++ q ++ "'."
      else
        String.intercalate "\n" ((articles.filter validArticle).map renderArticle) := by
  simp only [newsSectionBody, h, Bool.not_true, Bool.false_eq_true, if_false, articleLoop_eq]
  cases articles with
  | nil => rfl
  | cons a rest =>
    simp only [List.isEmpty_cons, Bool.not_false, if_true]
    cases hfe : (((a :: rest).filter validArticle).map renderArticle).isEmpty <;>
      simp [hfe]

/-- Witness for C7 on a response containing a removed article and a
well-formed article, with the key present. -/
theorem news_excludes_removed_articles_witness :
    truthy envFullCredentials.NEWSAPI_API_KEY = true ∧
    newsSectionBody "Acme Corp" envFullCredentials
        (ReqOutcome.ok [removedArticle, goodArticle]) =
      (if (([removedArticle, goodArticle].filter validArticle).map renderArticle).isEmpty then
        "No recent news articles found for '" ++ "Acme Corp" ++ "'."
      else
        String.intercalate "\n"
          (([removedArticle, goodArticle].filter validArticle).map renderArticle)) :=
  ⟨rfl, news_excludes_removed_articles "Acme Corp" envFullCredentials
    [removedArticle, goodArticle] rfl⟩

/-- Witness for C5's credentialed clause on a concrete submission list. -/
theorem reddit_urls_absolute_witness :
    truthy envFullCredentials.REDDIT_CLIENT_ID = true ∧
    truthy envFullCredentials.REDDIT_CLIENT_SECRET = true ∧
    scrape_reddit_with_praw "Acme Corp" envFullCredentials (Except.ok [sampleSubmission]) =
      (if ([sampleSubmission] : List Submission).isEmpty then
        "No recent Reddit posts found for '" ++ "Acme Corp" ++ "'."
      else
        String.intercalate "\n" (([sampleSubmission].take 8).map renderSubmission)) :=
  ⟨rfl, rfl, reddit_urls_absolute.2.2 "Acme Corp" envFullCredentials [sampleSubmission] rfl rfl⟩

end BrandMonitoring
